import Mathlib

/-!
Shallow embedding of `src/backend/src/controllers/github.controller.js`
(the Repository Access Gateway): three HTTP handlers over a `users` table
and the GitHub REST API, together with theorems checking the
natural-language specification against this embedding.

Modelling conventions:
* A database row of the `users` table is a `UserRow`; the table itself is a
  `List UserRow`.  A supabase `.eq(k, v).single()` query is embedded as
  "filter by the key, succeed only when exactly one row matches" (supabase
  `.single()` reports an error, with `data = null`, for zero or several rows).
* JSON values of the external API are a small inductive `Json`; a GitHub
  repository object is an association list `List (String × Json)`, so that a
  field access `repo.f` becomes an `Option Json` (`none` = `undefined`).
* Each handler is a pure function of the table, the caller identity and an
  oracle describing the external API's reply; it returns the HTTP response,
  the ordered trace of persistence/external effects it performed, and the
  resulting table state.
* JavaScript truthiness of the token column (`user?.github_access_token`) is
  `tokenTruthy`: `null`/absent and the empty string are falsy.
-/

/-- JSON value, as far as the embedding needs it.  No claim inspects nested
JSON structure (field values and the branches body are passed through
opaquely), so the grammar is cut down to atoms. -/
inductive Json where
  | null
  | bool (b : Bool)
  | num (n : Int)
  | str (s : String)
deriving DecidableEq, Repr

/-- A row of the `users` table (columns used by the controller). -/
structure UserRow where
  id : String
  firebase_uid : String
  github_access_token : Option String
  github_username : Option String
deriving DecidableEq, Repr

/-- One persistence or external-API effect performed by a handler, in order. -/
inductive Effect where
  | dbSelectByFirebaseUid (uid : String)
  | dbSelectById (uid : String)
  | dbSelectAllUsers
  | dbUpdateTokenNull (uid : String)
  | ghListRepos (token : String)
  | ghGetBranches (owner repo token : String)
  | ghGetRepo (owner repo token : String)
deriving DecidableEq, Repr

/-- Is this effect a call to the external (GitHub) API? -/
def Effect.isExternal : Effect → Bool
  | .ghListRepos _ => true
  | .ghGetBranches _ _ _ => true
  | .ghGetRepo _ _ _ => true
  | _ => false

/-- Is this effect a write to the persisted user table? -/
def Effect.isDbWrite : Effect → Bool
  | .dbUpdateTokenNull _ => true
  | _ => false

/-- Is this effect the fallback internal-id lookup? -/
def Effect.isIdLookup : Effect → Bool
  | .dbSelectById _ => true
  | _ => false

/-- A GitHub repository object as returned by the external API. -/
abbrev RepoObj := List (String × Json)

/-- Field access `o.k` on an external JSON object (`none` = `undefined`). -/
def repoField (o : RepoObj) (k : String) : Option Json :=
  (o.find? (fun p => p.1 == k)).map (·.2)

/-- Body of an HTTP response sent by one of the three handlers. -/
inductive RespBody where
  | repositories (repos : List (List (String × Option Json)))
  | branches (body : Json)
  | validation (valid : Bool) (repository : List (String × Option Json))
  | err (error : String) (message : Option String)
deriving DecidableEq, Repr

/-- An HTTP response: status code plus JSON body. -/
structure Resp where
  status : Nat
  body : RespBody
deriving DecidableEq, Repr

/-- Result of the axios call to GitHub's list-repositories endpoint:
success with the JSON array, an HTTP error (`error.response` present, with
its status), or a transport error (`error.response` absent). -/
inductive ListReposResult where
  | success (repos : List RepoObj)
  | httpError (status : Nat) (message : String)
  | networkError (message : String)

/-- Result of a `fetch` call: HTTP status plus parsed JSON body. -/
structure FetchResp where
  status : Nat
  body : Json

/-- Result of the validator's `fetch` of the get-repository endpoint. -/
structure GetRepoResp where
  status : Nat
  body : RepoObj

/-- `response.ok` of `fetch`: status in the range 200..299. -/
def fetchOk (status : Nat) : Bool := 200 ≤ status && status < 300

/- Response strings used verbatim by the controller. -/

/-- Error string of the `GitHubAuthRequired` outcome. -/
def githubAuthRequired : String := "GitHub authentication required"

/-- Error string of the `InvalidRepositoryUrl` outcome. -/
def invalidRepositoryUrl : String := "Invalid GitHub repository URL"

/-- Error string of the `RepositoryNotAccessible` outcome. -/
def repositoryNotAccessible : String := "Repository not found or no access"

/-- Message accompanying a 401 when no stored token was found. -/
def noTokenMessage : String :=
  "No GitHub access token found for your account. Please sign in with GitHub again."

/-- Message accompanying a 401 after the upstream API rejected the token. -/
def expiredTokenMessage : String :=
  "Your GitHub token has expired or is invalid. Please reconnect your GitHub account."

/-- Error string for a non-401 failure of the list-repositories upstream call. -/
def failedFetchRepos : String := "Failed to fetch repositories from GitHub"

/-- Error string for a non-success of the branches upstream call. -/
def failedFetchBranches : String := "Failed to fetch branches from GitHub"

/-- Error string of the validator's generic catch-all 500. -/
def failedValidate : String := "Failed to validate repository"

/- ## Persistence operations -/

/-- `supabase.from('users').select(...).eq('firebase_uid', uid).single()`:
some row iff exactly one row has that `firebase_uid`. -/
def lookupByFirebaseUid (db : List UserRow) (uid : String) : Option UserRow :=
  match db.filter (fun r => r.firebase_uid == uid) with
  | [r] => some r
  | _ => none

/-- `supabase.from('users').select('*').eq('id', uid).single()`. -/
def lookupById (db : List UserRow) (uid : String) : Option UserRow :=
  match db.filter (fun r => r.id == uid) with
  | [r] => some r
  | _ => none

/-- `supabase.from('users').update({github_access_token: null}).eq('firebase_uid', uid)`:
null the token of every row whose `firebase_uid` equals the caller identity. -/
def clearTokenByFirebaseUid (db : List UserRow) (uid : String) : List UserRow :=
  db.map (fun r => if r.firebase_uid == uid then { r with github_access_token := none } else r)

/- ## Credential resolution (getRepositories / getRepositoryBranches) -/

/-- JavaScript truthiness of the token column: `null`/absent and `""` are falsy. -/
def tokenTruthy : Option String → Bool
  | some t => !(t == "")
  | none => false

/-- The token of an optional row (`row?.github_access_token`). -/
def rowToken (r : Option UserRow) : Option String :=
  r.bind (·.github_access_token)

/-- The dual-key credential resolution shared by `getRepositories` and
`getRepositoryBranches` (lines 18-48 and 143-173 of the controller): first
the `firebase_uid` lookup; if its row's token is truthy, that row is used and
the fallback is never queried; otherwise the `id` lookup runs and its row is
used when its token is truthy.  Returns the resolved row (if any) and the
trace of lookups performed. -/
def resolveToken (db : List UserRow) (userId : String) :
    Option UserRow × List Effect :=
  let byFb := lookupByFirebaseUid db userId
  if tokenTruthy (rowToken byFb) then
    (byFb, [Effect.dbSelectByFirebaseUid userId])
  else
    let byId := lookupById db userId
    if tokenTruthy (rowToken byId) then
      (byId, [Effect.dbSelectByFirebaseUid userId, Effect.dbSelectById userId])
    else
      (none, [Effect.dbSelectByFirebaseUid userId, Effect.dbSelectById userId])

/- ## URL parsing (validateRepository) -/

/-- Is `p` a prefix of `cs`? (literal character-by-character match). -/
def listStartsWith : List Char → List Char → Bool
  | [], _ => true
  | _ :: _, [] => false
  | p :: ps, c :: cs => p == c && listStartsWith ps cs

/-- The literal part of the pattern `github\.com\/([^\/]+)\/([^\/]+)`. -/
def githubLiteral : List Char := "github.com/".toList

/-- Attempt the pattern at the start of `cs`: the literal `github.com/`,
then a greedy nonempty run of non-slash characters (group 1), a slash, and a
greedy nonempty run of non-slash characters (group 2).  Backtracking inside
the first group cannot help (its characters are all non-slash), so the
greedy runs are exact. -/
def tryMatchAt (cs : List Char) : Option (String × String) :=
  if listStartsWith githubLiteral cs then
    let rest := cs.drop githubLiteral.length
    let owner := rest.takeWhile (fun c => c != '/')
    let rest2 := rest.dropWhile (fun c => c != '/')
    match owner, rest2 with
    | [], _ => none
    | _ :: _, '/' :: rest3 =>
      let repo := rest3.takeWhile (fun c => c != '/')
      match repo with
      | [] => none
      | _ :: _ => some (String.mk owner, String.mk repo)
    | _ :: _, _ => none
  else none

/-- Leftmost-match scan of an unanchored regex: try every start position
from the left, returning the first position where the whole pattern matches. -/
def scanMatch : List Char → Option (String × String)
  | [] => none
  | c :: cs =>
    match tryMatchAt (c :: cs) with
    | some r => some r
    | none => scanMatch cs

/-- `repositoryUrl.match(/github\.com\/([^\/]+)\/([^\/]+)/)`, reduced to its
two capture groups: `none` iff the pattern matches nowhere in the string. -/
def parseGithubUrl (s : String) : Option (String × String) :=
  scanMatch s.toList

/- ## Response shaping -/

/-- The field projection applied by `getRepositories` to each repository
object (lines 117-126): the eight keys
`id, name, full_name, html_url, description, default_branch, visibility,
updated_at`, each carrying the external object's field unchanged
(absent fields pass through as `undefined`). -/
def formatRepo (o : RepoObj) : List (String × Option Json) :=
  [("id", repoField o "id"),
   ("name", repoField o "name"),
   ("full_name", repoField o "full_name"),
   ("html_url", repoField o "html_url"),
   ("description", repoField o "description"),
   ("default_branch", repoField o "default_branch"),
   ("visibility", repoField o "visibility"),
   ("updated_at", repoField o "updated_at")]

/-- The reduced summary built by `validateRepository` on success
(lines 266-275): keys `id, name, full_name, default_branch, visibility`. -/
def projectRepo (o : RepoObj) : List (String × Option Json) :=
  [("id", repoField o "id"),
   ("name", repoField o "name"),
   ("full_name", repoField o "full_name"),
   ("default_branch", repoField o "default_branch"),
   ("visibility", repoField o "visibility")]

/-- Field access on a projected/formatted summary object. -/
def fieldOf (l : List (String × Option Json)) (k : String) : Option (Option Json) :=
  (l.find? (fun p => p.1 == k)).map (·.2)

/- ## The three handlers -/

/-- `exports.getRepositories` (lines 13-133): resolve the token by the
dual-key precedence; without a token, log a bounded sample of users and
answer 401; with one, call the list endpoint; on upstream 401 null the token
of the `firebase_uid`-matched rows and answer 401; on another upstream HTTP
error propagate its status (`status || 500`); on a transport error answer
500; on success answer 200 with the per-item field projection. -/
def getRepositories (db : List UserRow) (userId : String)
    (gh : String → ListReposResult) : Resp × List Effect × List UserRow :=
  let r := resolveToken db userId
  match r.1 with
  | none =>
    (⟨401, RespBody.err githubAuthRequired (some noTokenMessage)⟩,
     r.2 ++ [Effect.dbSelectAllUsers], db)
  | some user =>
    let token := user.github_access_token.getD ""
    match gh token with
    | ListReposResult.success repos =>
      (⟨200, RespBody.repositories (repos.map formatRepo)⟩,
       r.2 ++ [Effect.ghListRepos token], db)
    | ListReposResult.httpError status msg =>
      if status == 401 then
        (⟨401, RespBody.err githubAuthRequired (some expiredTokenMessage)⟩,
         r.2 ++ [Effect.ghListRepos token, Effect.dbUpdateTokenNull userId],
         clearTokenByFirebaseUid db userId)
      else
        (⟨if status == 0 then 500 else status, RespBody.err failedFetchRepos (some msg)⟩,
         r.2 ++ [Effect.ghListRepos token], db)
    | ListReposResult.networkError msg =>
      (⟨500, RespBody.err failedFetchRepos (some msg)⟩,
       r.2 ++ [Effect.ghListRepos token], db)

/-- `exports.getRepositoryBranches` (lines 138-219): same credential
resolution; then one `fetch` of the branches endpoint; non-ok propagates the
upstream status with a fixed error string; ok passes the JSON body through
unreshaped. -/
def getRepositoryBranches (db : List UserRow) (userId owner repo : String)
    (gh : String → String → String → FetchResp) : Resp × List Effect × List UserRow :=
  let r := resolveToken db userId
  match r.1 with
  | none =>
    (⟨401, RespBody.err githubAuthRequired (some noTokenMessage)⟩,
     r.2 ++ [Effect.dbSelectAllUsers], db)
  | some user =>
    let token := user.github_access_token.getD ""
    let resp := gh owner repo token
    if fetchOk resp.status then
      (⟨200, RespBody.branches resp.body⟩,
       r.2 ++ [Effect.ghGetBranches owner repo token], db)
    else
      (⟨resp.status, RespBody.err failedFetchBranches none⟩,
       r.2 ++ [Effect.ghGetBranches owner repo token], db)

/-- `exports.validateRepository` (lines 224-280).  `repositoryUrl = none`
models a missing or non-string body field: `repositoryUrl.match` then throws
a `TypeError` before anything else runs, and the catch block answers the
generic 500.  Otherwise: pattern-match the URL (no match: 400 with zero
effects); a single `firebase_uid` lookup with no fallback (query error, no
row, or falsy token: 401); one `fetch` of the get-repository endpoint
(non-ok: 403; ok: 200 with `valid: true` and the reduced summary). -/
def validateRepository (db : List UserRow) (userId : String)
    (repositoryUrl : Option String)
    (gh : String → String → String → GetRepoResp) : Resp × List Effect × List UserRow :=
  match repositoryUrl with
  | none => (⟨500, RespBody.err failedValidate none⟩, [], db)
  | some url =>
    match parseGithubUrl url with
    | none => (⟨400, RespBody.err invalidRepositoryUrl none⟩, [], db)
    | some (owner, repo) =>
      match lookupByFirebaseUid db userId with
      | none =>
        (⟨401, RespBody.err githubAuthRequired none⟩,
         [Effect.dbSelectByFirebaseUid userId], db)
      | some user =>
        if tokenTruthy user.github_access_token then
          let token := user.github_access_token.getD ""
          let resp := gh owner repo token
          if fetchOk resp.status then
            (⟨200, RespBody.validation true (projectRepo resp.body)⟩,
             [Effect.dbSelectByFirebaseUid userId, Effect.ghGetRepo owner repo token], db)
          else
            (⟨403, RespBody.err repositoryNotAccessible none⟩,
             [Effect.dbSelectByFirebaseUid userId, Effect.ghGetRepo owner repo token], db)
        else
          (⟨401, RespBody.err githubAuthRequired none⟩,
           [Effect.dbSelectByFirebaseUid userId], db)

/- ## Helper lemmas -/

/-- The trace of lookups performed by credential resolution is either the
single primary lookup or the primary lookup followed by the fallback. -/
lemma resolveToken_effects (db : List UserRow) (uid : String) :
    (resolveToken db uid).2 = [Effect.dbSelectByFirebaseUid uid]
    ∨ (resolveToken db uid).2
        = [Effect.dbSelectByFirebaseUid uid, Effect.dbSelectById uid] := by
  unfold resolveToken
  by_cases h1 : tokenTruthy (rowToken (lookupByFirebaseUid db uid)) = true
  · simp [h1]
  · by_cases h2 : tokenTruthy (rowToken (lookupById db uid)) = true
    · simp [h1, h2]
    · simp [h1, h2]

/-- Credential resolution always performs the primary lookup. -/
lemma resolveToken_mem_fb (db : List UserRow) (uid : String) :
    Effect.dbSelectByFirebaseUid uid ∈ (resolveToken db uid).2 := by
  rcases resolveToken_effects db uid with h | h <;> rw [h] <;> simp

/-- Every effect of credential resolution is one of the two table lookups. -/
lemma resolveToken_effect_shape (db : List UserRow) (uid : String) :
    ∀ e ∈ (resolveToken db uid).2,
      e = Effect.dbSelectByFirebaseUid uid ∨ e = Effect.dbSelectById uid := by
  intro e he
  rcases resolveToken_effects db uid with h | h <;> rw [h] at he <;> simp_all

/-- Filtering the cleared table by the `firebase_uid` key gives the cleared
image of the original filter (the token update does not change the key). -/
lemma clearToken_filter (db : List UserRow) (uid : String) :
    (clearTokenByFirebaseUid db uid).filter (fun r => r.firebase_uid == uid)
      = ((db.filter (fun r => r.firebase_uid == uid)).map
          (fun r => { r with github_access_token := none })) := by
  unfold clearTokenByFirebaseUid
  rw [List.filter_map]
  have hp : ((fun r : UserRow => r.firebase_uid == uid) ∘
      (fun r : UserRow =>
        if r.firebase_uid == uid then { r with github_access_token := none } else r))
      = fun r : UserRow => r.firebase_uid == uid := by
    funext r
    show ((if (r.firebase_uid == uid) = true
        then ({ r with github_access_token := none } : UserRow)
        else r).firebase_uid == uid) = (r.firebase_uid == uid)
    by_cases h : (r.firebase_uid == uid) = true
    · rw [if_pos h]
    · rw [if_neg h]
  rw [hp]
  apply List.map_congr_left
  intro r hr
  simp [(List.mem_filter.mp hr).2]

/-- Looking up the cleared table by the `firebase_uid` key returns the
original row with its token nulled (when a unique row matched before). -/
lemma lookup_clearToken (db : List UserRow) (uid : String) :
    lookupByFirebaseUid (clearTokenByFirebaseUid db uid) uid
      = (lookupByFirebaseUid db uid).map
          (fun r => { r with github_access_token := none }) := by
  unfold lookupByFirebaseUid
  rw [clearToken_filter]
  rcases h : db.filter (fun r => r.firebase_uid == uid) with _ | ⟨r, _ | ⟨s, rest⟩⟩ <;>
    rw [h] <;> rfl

/-- After the invalidation update, the `firebase_uid` lookup can no longer
produce a truthy token. -/
lemma tokenTruthy_clearToken (db : List UserRow) (uid : String) :
    tokenTruthy (rowToken
      (lookupByFirebaseUid (clearTokenByFirebaseUid db uid) uid)) = false := by
  rw [lookup_clearToken]
  rcases lookupByFirebaseUid db uid with _ | r
  · rfl
  · rfl

/- ## Claims -/

/-- C3: for every caller identity for which neither the external-identity-key
lookup nor the internal-id lookup yields a row with a non-null token, the
list-repositories and list-branches handlers return 401 with the
`GitHubAuthRequired` error and perform zero calls to the external GitHub API. -/
theorem c3_unresolvable_identity_401_no_external
    (db : List UserRow) (uid owner repo : String)
    (ghL : String → ListReposResult)
    (ghB : String → String → String → FetchResp)
    (hfb : rowToken (lookupByFirebaseUid db uid) = none)
    (hid : rowToken (lookupById db uid) = none) :
    ((getRepositories db uid ghL).1
        = ⟨401, RespBody.err githubAuthRequired (some noTokenMessage)⟩
      ∧ (((getRepositories db uid ghL).2.1).all fun e => !e.isExternal) = true)
    ∧ ((getRepositoryBranches db uid owner repo ghB).1
        = ⟨401, RespBody.err githubAuthRequired (some noTokenMessage)⟩
      ∧ (((getRepositoryBranches db uid owner repo ghB).2.1).all
            fun e => !e.isExternal) = true) := by
  have hres : resolveToken db uid
      = (none, [Effect.dbSelectByFirebaseUid uid, Effect.dbSelectById uid]) := by
    simp [resolveToken, hfb, hid, tokenTruthy]
  refine ⟨⟨?_, ?_⟩, ?_, ?_⟩ <;>
    simp [getRepositories, getRepositoryBranches, hres, Effect.isExternal]

/-- GitHub oracle used by witnesses of the list-repositories handler. -/
def ghListW : String → ListReposResult := fun _ => ListReposResult.success []

/-- GitHub oracle used by witnesses of the branches handler. -/
def ghBranchesW : String → String → String → FetchResp := fun _ _ _ => ⟨200, Json.null⟩

/-- GitHub oracle used by witnesses of the validator handler. -/
def ghRepoW : String → String → String → GetRepoResp := fun _ _ _ => ⟨200, []⟩

/-- Witness for C3: the empty table and caller identity `nobody`. -/
theorem c3_witness :
    ((getRepositories [] "nobody" ghListW).1
        = ⟨401, RespBody.err githubAuthRequired (some noTokenMessage)⟩
      ∧ (((getRepositories [] "nobody" ghListW).2.1).all fun e => !e.isExternal) = true)
    ∧ ((getRepositoryBranches [] "nobody" "o" "r" ghBranchesW).1
        = ⟨401, RespBody.err githubAuthRequired (some noTokenMessage)⟩
      ∧ (((getRepositoryBranches [] "nobody" "o" "r" ghBranchesW).2.1).all
            fun e => !e.isExternal) = true) :=
  c3_unresolvable_identity_401_no_external [] "nobody" "o" "r" ghListW ghBranchesW rfl rfl

/-- C4: the repository validator parses owner and repo with a single
unanchored match of `github.com/<owner>/<repo>` anywhere in the string: the
example URL parses to `("acme", "widgets")`, and any input in which the
pattern matches nowhere is answered 400 `InvalidRepositoryUrl` with an empty
effect trace (zero external API calls and zero database lookups). -/
theorem c4_url_parse_and_reject
    (db : List UserRow) (uid url : String)
    (gh : String → String → String → GetRepoResp)
    (h : parseGithubUrl url = none) :
    parseGithubUrl "https://github.com/acme/widgets" = some ("acme", "widgets")
    ∧ validateRepository db uid (some url) gh
        = (⟨400, RespBody.err invalidRepositoryUrl none⟩, [], db) := by
  refine ⟨rfl, ?_⟩
  simp [validateRepository, h]

/-- Witness for C4: a GitLab URL contains `github.com/owner/repo` nowhere. -/
theorem c4_witness :
    parseGithubUrl "https://github.com/acme/widgets" = some ("acme", "widgets")
    ∧ validateRepository [] "u" (some "https://gitlab.example.org/acme/widgets") ghRepoW
        = (⟨400, RespBody.err invalidRepositoryUrl none⟩, [], []) :=
  c4_url_parse_and_reject [] "u" "https://gitlab.example.org/acme/widgets" ghRepoW rfl

/-- C10: a missing or non-string `repositoryUrl` in the validate-repository
body makes `repositoryUrl.match` throw before the 400 branch is reachable,
so the handler answers the generic 500 failure, with no effects performed. -/
theorem c10_missing_url_generic_500
    (db : List UserRow) (uid : String)
    (gh : String → String → String → GetRepoResp) :
    validateRepository db uid none gh
      = (⟨500, RespBody.err failedValidate none⟩, [], db) := rfl

/-- C7: credential resolution in the repository validator queries the user
table only by the external-identity key, never the internal-id fallback
(no execution of the handler ever performs the id lookup); and whenever that
single lookup errors, finds no row, or finds a row with a null token, the
validator answers 401 before any external API call. -/
theorem c7_validator_single_key_lookup
    (db : List UserRow) (uid url owner repo : String)
    (gh : String → String → String → GetRepoResp)
    (hurl : parseGithubUrl url = some (owner, repo))
    (htok : rowToken (lookupByFirebaseUid db uid) = none) :
    ((validateRepository db uid (some url) gh).1
        = ⟨401, RespBody.err githubAuthRequired none⟩
      ∧ (((validateRepository db uid (some url) gh).2.1).all
            fun e => !e.isExternal) = true)
    ∧ ∀ (url2 : Option String) (gh2 : String → String → String → GetRepoResp),
        (((validateRepository db uid url2 gh2).2.1).all fun e => !e.isIdLookup) = true := by
  constructor
  · rcases hl : lookupByFirebaseUid db uid with _ | user
    · simp [validateRepository, hurl, hl, Effect.isExternal]
    · have hnone : user.github_access_token = none := by
        rw [hl] at htok
        exact htok
      simp [validateRepository, hurl, hl, hnone, tokenTruthy, Effect.isExternal]
  · intro url2 gh2
    rcases url2 with _ | u2
    · rfl
    · rcases hp : parseGithubUrl u2 with _ | ⟨ow, rp⟩
      · simp [validateRepository, hp]
      · rcases hl : lookupByFirebaseUid db uid with _ | user
        · simp [validateRepository, hp, hl, Effect.isIdLookup]
        · by_cases ht : tokenTruthy user.github_access_token = true
          · by_cases hok :
                fetchOk (gh2 ow rp (user.github_access_token.getD "")).status = true
            · simp [validateRepository, hp, hl, ht, hok, Effect.isIdLookup]
            · simp [validateRepository, hp, hl, ht, hok, Effect.isIdLookup]
          · simp [validateRepository, hp, hl, ht, Effect.isIdLookup]

/-- Witness for C7: a table whose only row matches neither key. -/
theorem c7_witness :
    ((validateRepository [] "ghost" (some "https://github.com/acme/widgets") ghRepoW).1
        = ⟨401, RespBody.err githubAuthRequired none⟩
      ∧ (((validateRepository [] "ghost" (some "https://github.com/acme/widgets") ghRepoW).2.1).all
            fun e => !e.isExternal) = true)
    ∧ ∀ (url2 : Option String) (gh2 : String → String → String → GetRepoResp),
        (((validateRepository [] "ghost" url2 gh2).2.1).all fun e => !e.isIdLookup) = true :=
  c7_validator_single_key_lookup [] "ghost" "https://github.com/acme/widgets"
    "acme" "widgets" ghRepoW rfl rfl

/-- C8: every non-success response from the external get-repository call,
whatever its non-2xx status, is answered exactly 403 `RepositoryNotAccessible`,
collapsing "does not exist" and "no permission" into one outcome. -/
theorem c8_nonsuccess_collapses_to_403
    (db : List UserRow) (uid url owner repo t : String) (user : UserRow)
    (gh : String → String → String → GetRepoResp)
    (hurl : parseGithubUrl url = some (owner, repo))
    (hl : lookupByFirebaseUid db uid = some user)
    (ht : user.github_access_token = some t)
    (hne : (t == "") = false)
    (hnok : fetchOk (gh owner repo t).status = false) :
    (validateRepository db uid (some url) gh).1
      = ⟨403, RespBody.err repositoryNotAccessible none⟩ := by
  simp [validateRepository, hurl, hl, ht, tokenTruthy, hne, hnok]

/-- Oracle answering 404 to the get-repository call. -/
def ghRepo404 : String → String → String → GetRepoResp := fun _ _ _ => ⟨404, []⟩

/-- Witness for C8 at a 404 reply. -/
theorem c8_witness :
    (validateRepository [⟨"id8", "fb8", some "tok8", some "dana"⟩] "fb8"
        (some "https://github.com/acme/widgets") ghRepo404).1
      = ⟨403, RespBody.err repositoryNotAccessible none⟩ :=
  c8_nonsuccess_collapses_to_403 [⟨"id8", "fb8", some "tok8", some "dana"⟩] "fb8"
    "https://github.com/acme/widgets" "acme" "widgets" "tok8"
    ⟨"id8", "fb8", some "tok8", some "dana"⟩ ghRepo404 rfl rfl rfl rfl rfl

/-- C5: on a successful external get-repository response the validator
answers 200 with exactly `valid: true` and the five-key summary
`id, name, full_name, default_branch, visibility`, each key carrying the
external object's field, every extra field dropped. -/
theorem c5_success_projection
    (db : List UserRow) (uid url owner repo t : String) (user : UserRow)
    (gh : String → String → String → GetRepoResp)
    (hurl : parseGithubUrl url = some (owner, repo))
    (hl : lookupByFirebaseUid db uid = some user)
    (ht : user.github_access_token = some t)
    (hne : (t == "") = false)
    (hok : fetchOk (gh owner repo t).status = true) :
    ((validateRepository db uid (some url) gh).1
        = ⟨200, RespBody.validation true (projectRepo (gh owner repo t).body)⟩)
    ∧ ∀ o : RepoObj,
        (projectRepo o).map Prod.fst
            = ["id", "name", "full_name", "default_branch", "visibility"]
        ∧ fieldOf (projectRepo o) "id" = some (repoField o "id")
        ∧ fieldOf (projectRepo o) "name" = some (repoField o "name")
        ∧ fieldOf (projectRepo o) "full_name" = some (repoField o "full_name")
        ∧ fieldOf (projectRepo o) "default_branch" = some (repoField o "default_branch")
        ∧ fieldOf (projectRepo o) "visibility" = some (repoField o "visibility") := by
  constructor
  · simp [validateRepository, hurl, hl, ht, tokenTruthy, hne, hok]
  · intro o
    exact ⟨rfl, rfl, rfl, rfl, rfl, rfl⟩

/-- The spec's example get-repository body, with two extra fields. -/
def repoDataW5 : RepoObj :=
  [("id", Json.num 1), ("name", Json.str "widgets"),
   ("full_name", Json.str "acme/widgets"), ("default_branch", Json.str "main"),
   ("visibility", Json.str "public"), ("stargazers_count", Json.num 7),
   ("archived", Json.bool false)]

/-- Oracle answering 200 with the example body. -/
def ghRepoOkW5 : String → String → String → GetRepoResp := fun _ _ _ => ⟨200, repoDataW5⟩

/-- Witness for C5: the spec's example body projects to exactly the five
enumerated keys, extra fields dropped. -/
theorem c5_witness :
    (validateRepository [⟨"id5", "fb5", some "tok5", some "elif"⟩] "fb5"
        (some "https://github.com/acme/widgets") ghRepoOkW5).1
      = ⟨200, RespBody.validation true
          [("id", some (Json.num 1)), ("name", some (Json.str "widgets")),
           ("full_name", some (Json.str "acme/widgets")),
           ("default_branch", some (Json.str "main")),
           ("visibility", some (Json.str "public"))]⟩ := by
  have h := (c5_success_projection [⟨"id5", "fb5", some "tok5", some "elif"⟩] "fb5"
    "https://github.com/acme/widgets" "acme" "widgets" "tok5"
    ⟨"id5", "fb5", some "tok5", some "elif"⟩ ghRepoOkW5 rfl rfl rfl rfl rfl).1
  rw [h]
  rfl

/-- Table for the C1 counterexample: the caller identity `u1` matches the
row's internal `id`, not its `firebase_uid`. -/
def db1ce : List UserRow := [⟨"u1", "fb1", some "tok1", some "alice"⟩]

/-- Oracle replying 401 to the list-repositories call. -/
def gh401ce : String → ListReposResult :=
  fun _ => ListReposResult.httpError 401 "Bad credentials"

/-- C1 as stated is false: the token of `db1ce` is resolved via the
internal-id fallback, the upstream replies 401, the handler answers 401 and
issues the invalidation update — but that update is keyed on `firebase_uid`,
matches no row, leaves the table unchanged, and subsequent credential
resolution for the same caller identity still succeeds. -/
theorem c1_counterexample :
    (resolveToken db1ce "u1").1.isSome = true
    ∧ Effect.dbSelectById "u1" ∈ (resolveToken db1ce "u1").2
    ∧ (getRepositories db1ce "u1" gh401ce).1
        = ⟨401, RespBody.err githubAuthRequired (some expiredTokenMessage)⟩
    ∧ Effect.dbUpdateTokenNull "u1" ∈ (getRepositories db1ce "u1" gh401ce).2.1
    ∧ (getRepositories db1ce "u1" gh401ce).2.2 = db1ce
    ∧ (resolveToken ((getRepositories db1ce "u1" gh401ce).2.2) "u1").1.isSome = true := by
  decide

/-- C1 amended: on an upstream 401 to the list call the handler answers 401
`GitHubAuthRequired`, sets the token to null for the rows matched by the
external-identity key, and afterwards the external-identity-key lookup can no
longer yield a usable token; subsequent resolution as a whole fails exactly
when the internal-id fallback then supplies no token either — in particular a
token originally resolved via the internal-id fallback survives. -/
theorem c1_amended_upstream_401
    (db : List UserRow) (uid m : String) (user : UserRow) (effs : List Effect)
    (gh : String → ListReposResult)
    (hres : resolveToken db uid = (some user, effs))
    (hgh : gh (user.github_access_token.getD "") = ListReposResult.httpError 401 m) :
    (getRepositories db uid gh).1
        = ⟨401, RespBody.err githubAuthRequired (some expiredTokenMessage)⟩
    ∧ (getRepositories db uid gh).2.2 = clearTokenByFirebaseUid db uid
    ∧ Effect.dbUpdateTokenNull uid ∈ (getRepositories db uid gh).2.1
    ∧ tokenTruthy (rowToken
        (lookupByFirebaseUid ((getRepositories db uid gh).2.2) uid)) = false
    ∧ (tokenTruthy (rowToken
          (lookupById ((getRepositories db uid gh).2.2) uid)) = false →
        (resolveToken ((getRepositories db uid gh).2.2) uid).1 = none) := by
  have hout : getRepositories db uid gh
      = (⟨401, RespBody.err githubAuthRequired (some expiredTokenMessage)⟩,
         effs ++ [Effect.ghListRepos (user.github_access_token.getD ""),
                  Effect.dbUpdateTokenNull uid],
         clearTokenByFirebaseUid db uid) := by
    simp [getRepositories, hres, hgh]
  refine ⟨?_, ?_, ?_, ?_, ?_⟩
  · rw [hout]
  · rw [hout]
  · rw [hout]
    simp
  · rw [hout]
    exact tokenTruthy_clearToken db uid
  · rw [hout]
    intro hid
    simp [resolveToken, tokenTruthy_clearToken db uid, hid]

/-- Witness for C1 (amended): the caller identity matches the row's
`firebase_uid`, the upstream replies 401, and the primary-key lookup can no
longer resolve a token afterwards. -/
theorem c1_witness :
    (getRepositories [⟨"idA", "fbA", some "tokA", some "ana"⟩] "fbA" gh401ce).1
        = ⟨401, RespBody.err githubAuthRequired (some expiredTokenMessage)⟩
    ∧ (getRepositories [⟨"idA", "fbA", some "tokA", some "ana"⟩] "fbA" gh401ce).2.2
        = clearTokenByFirebaseUid [⟨"idA", "fbA", some "tokA", some "ana"⟩] "fbA"
    ∧ tokenTruthy (rowToken (lookupByFirebaseUid
        ((getRepositories [⟨"idA", "fbA", some "tokA", some "ana"⟩] "fbA" gh401ce).2.2)
        "fbA")) = false := by
  have h := c1_amended_upstream_401 [⟨"idA", "fbA", some "tokA", some "ana"⟩] "fbA"
    "Bad credentials" ⟨"idA", "fbA", some "tokA", some "ana"⟩
    [Effect.dbSelectByFirebaseUid "fbA"] gh401ce rfl rfl
  exact ⟨h.1, h.2.1, h.2.2.2.1⟩

/-- Table for the C2 counterexample: the row matched by the external-identity
key holds a non-null but empty token; a second row is matched by the
internal-id key. -/
def db2ce : List UserRow :=
  [⟨"zz", "u2", some "", some "astrid"⟩, ⟨"u2", "w2", some "tok2", some "bojan"⟩]

/-- C2 as stated is false: the external-identity row exists and its token is
non-null (the empty string), yet the handler performs the fallback
internal-id lookup and uses the fallback row instead. -/
theorem c2_counterexample :
    lookupByFirebaseUid db2ce "u2" = some ⟨"zz", "u2", some "", some "astrid"⟩
    ∧ rowToken (lookupByFirebaseUid db2ce "u2") = some ""
    ∧ Effect.dbSelectById "u2" ∈ (resolveToken db2ce "u2").2
    ∧ (resolveToken db2ce "u2").1 = some ⟨"u2", "w2", some "tok2", some "bojan"⟩ := by
  decide

/-- C2 amended: "non-null" strengthened to "non-null and non-empty"
(JavaScript truthiness).  If the external-identity row's token is truthy,
that row is used and the fallback is never performed; otherwise the
internal-id lookup is performed and its row is used exactly when its token
is truthy. -/
theorem c2_amended_two_step_precedence (db : List UserRow) (uid : String) :
    (tokenTruthy (rowToken (lookupByFirebaseUid db uid)) = true →
      resolveToken db uid
        = (lookupByFirebaseUid db uid, [Effect.dbSelectByFirebaseUid uid]))
    ∧ (tokenTruthy (rowToken (lookupByFirebaseUid db uid)) = false →
        ((resolveToken db uid).2
            = [Effect.dbSelectByFirebaseUid uid, Effect.dbSelectById uid]
        ∧ (tokenTruthy (rowToken (lookupById db uid)) = true →
            (resolveToken db uid).1 = lookupById db uid)
        ∧ (tokenTruthy (rowToken (lookupById db uid)) = false →
            (resolveToken db uid).1 = none))) := by
  constructor
  · intro h1
    simp [resolveToken, h1]
  · intro h1
    cases hb : tokenTruthy (rowToken (lookupById db uid)) with
    | false =>
      refine ⟨by simp [resolveToken, h1, hb], ?_, ?_⟩
      · intro hc
        simp at hc
      · intro _
        simp [resolveToken, h1, hb]
    | true =>
      refine ⟨by simp [resolveToken, h1, hb], ?_, ?_⟩
      · intro _
        simp [resolveToken, h1, hb]
      · intro hc
        simp at hc

/-- Witness for C2 (amended): a table whose external-identity row holds a
truthy token is resolved by the primary lookup alone. -/
theorem c2_witness :
    resolveToken [⟨"idw", "fbw", some "tokw", some "wanda"⟩] "fbw"
      = (lookupByFirebaseUid [⟨"idw", "fbw", some "tokw", some "wanda"⟩] "fbw",
         [Effect.dbSelectByFirebaseUid "fbw"]) :=
  (c2_amended_two_step_precedence [⟨"idw", "fbw", some "tokw", some "wanda"⟩] "fbw").1 rfl

/-- Repository object for the C6 counterexample. -/
def repoObj6 : RepoObj := [("id", Json.num 3)]

/-- C6 as stated is false in its field count: the per-item projection of the
list-repositories mapping emits eight fields, not seven. -/
theorem c6_counterexample :
    (formatRepo repoObj6).map Prod.fst
        = ["id", "name", "full_name", "html_url", "description",
           "default_branch", "visibility", "updated_at"]
    ∧ (formatRepo repoObj6).length = 8
    ∧ ((formatRepo repoObj6).length = 7 → False) := by
  decide

/-- C6 amended: "seven-field" corrected to "eight-field".  On upstream
success the handler answers 200 with the mapped array; the mapping preserves
length and order and sends each element to the eight enumerated keys, each
carrying the external object's field as-is (absent fields pass through as
`undefined`). -/
theorem c6_amended_mapping
    (db : List UserRow) (uid : String) (user : UserRow) (effs : List Effect)
    (gh : String → ListReposResult) (rs : List RepoObj)
    (hres : resolveToken db uid = (some user, effs))
    (hgh : gh (user.github_access_token.getD "") = ListReposResult.success rs) :
    (getRepositories db uid gh).1 = ⟨200, RespBody.repositories (rs.map formatRepo)⟩
    ∧ (rs.map formatRepo).length = rs.length
    ∧ (∀ i : Nat, (rs.map formatRepo)[i]? = (rs[i]?).map formatRepo)
    ∧ ∀ o : RepoObj,
        (formatRepo o).map Prod.fst
            = ["id", "name", "full_name", "html_url", "description",
               "default_branch", "visibility", "updated_at"]
        ∧ fieldOf (formatRepo o) "id" = some (repoField o "id")
        ∧ fieldOf (formatRepo o) "name" = some (repoField o "name")
        ∧ fieldOf (formatRepo o) "full_name" = some (repoField o "full_name")
        ∧ fieldOf (formatRepo o) "html_url" = some (repoField o "html_url")
        ∧ fieldOf (formatRepo o) "description" = some (repoField o "description")
        ∧ fieldOf (formatRepo o) "default_branch" = some (repoField o "default_branch")
        ∧ fieldOf (formatRepo o) "visibility" = some (repoField o "visibility")
        ∧ fieldOf (formatRepo o) "updated_at" = some (repoField o "updated_at") := by
  refine ⟨?_, by simp, ?_, ?_⟩
  · simp [getRepositories, hres, hgh]
  · intro i
    simp
  · intro o
    exact ⟨rfl, rfl, rfl, rfl, rfl, rfl, rfl, rfl, rfl⟩

/-- External array for the C6 witness: two objects, the second missing most
fields. -/
def rsW6 : List RepoObj :=
  [[("id", Json.num 10), ("name", Json.str "alpha"),
    ("full_name", Json.str "org/alpha"),
    ("html_url", Json.str "https://github.com/org/alpha"),
    ("description", Json.null), ("default_branch", Json.str "main"),
    ("visibility", Json.str "public"), ("updated_at", Json.str "2025-01-01")],
   [("id", Json.num 11)]]

/-- Oracle answering the list call with `rsW6`. -/
def ghOkW6 : String → ListReposResult := fun _ => ListReposResult.success rsW6

/-- Witness for C6 (amended) at a concrete two-element array. -/
theorem c6_witness :
    (getRepositories [⟨"id6", "fb6", some "tok6", some "farid"⟩] "fb6" ghOkW6).1
      = ⟨200, RespBody.repositories (rsW6.map formatRepo)⟩
    ∧ (rsW6.map formatRepo).length = rsW6.length := by
  have h := c6_amended_mapping [⟨"id6", "fb6", some "tok6", some "farid"⟩] "fb6"
    ⟨"id6", "fb6", some "tok6", some "farid"⟩ [Effect.dbSelectByFirebaseUid "fb6"]
    ghOkW6 rsW6 rfl rfl
  exact ⟨h.1, h.2.1⟩

/-- Every effect of credential resolution leaves the table unwritten. -/
lemma resolveToken_all_no_write (db : List UserRow) (uid : String) :
    (((resolveToken db uid).2).all fun e => !e.isDbWrite) = true := by
  rw [List.all_eq_true]
  intro e he
  rcases resolveToken_effect_shape db uid e he with rfl | rfl <;> rfl

/-- Membership form of `resolveToken_all_no_write`. -/
lemma resolveToken_no_write_mem (db : List UserRow) (uid : String) :
    ∀ e ∈ (resolveToken db uid).2, e.isDbWrite = false := by
  intro e he
  rcases resolveToken_effect_shape db uid e he with rfl | rfl <;> rfl

/-- Classification of `getRepositories` runs: either the trace holds no
table write and the table is unchanged, or the trace holds a write and the
run is exactly the upstream-401 invalidation path. -/
lemma getRepositories_write_cases (db : List UserRow) (uid : String)
    (ghL : String → ListReposResult) :
    ((((getRepositories db uid ghL).2.1).all fun e => !e.isDbWrite) = true
      ∧ (getRepositories db uid ghL).2.2 = db)
    ∨ ((((getRepositories db uid ghL).2.1).all fun e => !e.isDbWrite) = false
      ∧ (getRepositories db uid ghL).1
          = ⟨401, RespBody.err githubAuthRequired (some expiredTokenMessage)⟩
      ∧ (getRepositories db uid ghL).2.2 = clearTokenByFirebaseUid db uid
      ∧ Effect.dbUpdateTokenNull uid ∈ (getRepositories db uid ghL).2.1) := by
  rcases hu : (resolveToken db uid).1 with _ | user
  · left
    constructor
    · simp [getRepositories, hu, List.all_append, Effect.isDbWrite] <;>
        exact fun e he => resolveToken_no_write_mem db uid e he
    · simp [getRepositories, hu]
  · cases hgh : ghL (user.github_access_token.getD "") with
    | success rs =>
      left
      constructor
      · simp [getRepositories, hu, hgh, List.all_append, Effect.isDbWrite] <;>
          exact fun e he => resolveToken_no_write_mem db uid e he
      · simp [getRepositories, hu, hgh]
    | httpError status m =>
      by_cases h4 : (status == 401) = true
      · right
        refine ⟨?_, ?_, ?_, ?_⟩
        · simp [getRepositories, hu, hgh, h4, List.all_append, Effect.isDbWrite]
        · simp [getRepositories, hu, hgh, h4]
        · simp [getRepositories, hu, hgh, h4]
        · simp [getRepositories, hu, hgh, h4]
      · left
        constructor
        · simp [getRepositories, hu, hgh, h4, List.all_append, Effect.isDbWrite] <;>
            exact fun e he => resolveToken_no_write_mem db uid e he
        · simp [getRepositories, hu, hgh, h4]
    | networkError m =>
      left
      constructor
      · simp [getRepositories, hu, hgh, List.all_append, Effect.isDbWrite] <;>
          exact fun e he => resolveToken_no_write_mem db uid e he
      · simp [getRepositories, hu, hgh]

/-- C9: the stored token column is read by all three handlers (every run of
the two listers performs the primary lookup; every validator run that parses
its URL does), but written only on the 401-invalidation path of the
list-repositories handler: the branches and validator handlers never write
on any path, and a list-repositories trace holds a write exactly on the run
that answers the upstream-401 response and nulls the matched rows. -/
theorem c9_token_write_frame
    (db : List UserRow) (uid owner repo : String) (url : Option String)
    (ghL : String → ListReposResult)
    (ghB : String → String → String → FetchResp)
    (ghV : String → String → String → GetRepoResp) :
    ((getRepositoryBranches db uid owner repo ghB).2.2 = db
      ∧ (((getRepositoryBranches db uid owner repo ghB).2.1).all
            fun e => !e.isDbWrite) = true)
    ∧ ((validateRepository db uid url ghV).2.2 = db
      ∧ (((validateRepository db uid url ghV).2.1).all fun e => !e.isDbWrite) = true)
    ∧ ((((getRepositories db uid ghL).2.1).all fun e => !e.isDbWrite) = true →
        (getRepositories db uid ghL).2.2 = db)
    ∧ ((((getRepositories db uid ghL).2.1).all fun e => !e.isDbWrite) = false →
        ((getRepositories db uid ghL).1
            = ⟨401, RespBody.err githubAuthRequired (some expiredTokenMessage)⟩
        ∧ (getRepositories db uid ghL).2.2 = clearTokenByFirebaseUid db uid
        ∧ Effect.dbUpdateTokenNull uid ∈ (getRepositories db uid ghL).2.1))
    ∧ Effect.dbSelectByFirebaseUid uid ∈ (getRepositories db uid ghL).2.1
    ∧ Effect.dbSelectByFirebaseUid uid ∈ (getRepositoryBranches db uid owner repo ghB).2.1
    ∧ (∀ (u2 ow rp : String), parseGithubUrl u2 = some (ow, rp) →
        Effect.dbSelectByFirebaseUid uid ∈ (validateRepository db uid (some u2) ghV).2.1) := by
  refine ⟨⟨?_, ?_⟩, ⟨?_, ?_⟩, ?_, ?_, ?_, ?_, ?_⟩
  · rcases hu : (resolveToken db uid).1 with _ | user
    · simp [getRepositoryBranches, hu]
    · by_cases hok : fetchOk ((ghB owner repo (user.github_access_token.getD "")).status) = true
      · simp [getRepositoryBranches, hu, hok]
      · simp [getRepositoryBranches, hu, hok]
  · rcases hu : (resolveToken db uid).1 with _ | user
    · simp [getRepositoryBranches, hu, List.all_append, Effect.isDbWrite] <;>
        exact fun e he => resolveToken_no_write_mem db uid e he
    · by_cases hok : fetchOk ((ghB owner repo (user.github_access_token.getD "")).status) = true <;>
        simp [getRepositoryBranches, hu, hok, List.all_append, Effect.isDbWrite] <;>
        exact fun e he => resolveToken_no_write_mem db uid e he
  · rcases url with _ | u2
    · rfl
    · rcases hp : parseGithubUrl u2 with _ | ⟨ow, rp⟩
      · simp [validateRepository, hp]
      · rcases hl : lookupByFirebaseUid db uid with _ | user
        · simp [validateRepository, hp, hl]
        · by_cases ht : tokenTruthy user.github_access_token = true
          · by_cases hok2 :
                fetchOk ((ghV ow rp (user.github_access_token.getD "")).status) = true <;>
              simp [validateRepository, hp, hl, ht, hok2]
          · simp [validateRepository, hp, hl, ht]
  · rcases url with _ | u2
    · rfl
    · rcases hp : parseGithubUrl u2 with _ | ⟨ow, rp⟩
      · simp [validateRepository, hp]
      · rcases hl : lookupByFirebaseUid db uid with _ | user
        · simp [validateRepository, hp, hl, Effect.isDbWrite]
        · by_cases ht : tokenTruthy user.github_access_token = true
          · by_cases hok2 :
                fetchOk ((ghV ow rp (user.github_access_token.getD "")).status) = true <;>
              simp [validateRepository, hp, hl, ht, hok2, Effect.isDbWrite]
          · simp [validateRepository, hp, hl, ht, Effect.isDbWrite]
  · intro hall
    rcases getRepositories_write_cases db uid ghL with ⟨_, hdb⟩ | ⟨hfalse, _⟩
    · exact hdb
    · rw [hall] at hfalse
      simp at hfalse
  · intro hall
    rcases getRepositories_write_cases db uid ghL with ⟨htrue, _⟩ | ⟨_, h1, h2, h3⟩
    · rw [hall] at htrue
      simp at htrue
    · exact ⟨h1, h2, h3⟩
  · rcases hu : (resolveToken db uid).1 with _ | user
    · simp [getRepositories, hu, List.mem_append, resolveToken_mem_fb]
    · cases hgh : ghL (user.github_access_token.getD "") with
      | success rs => simp [getRepositories, hu, hgh, List.mem_append, resolveToken_mem_fb]
      | httpError status m =>
        by_cases h4 : (status == 401) = true <;>
          simp [getRepositories, hu, hgh, h4, List.mem_append, resolveToken_mem_fb]
      | networkError m =>
        simp [getRepositories, hu, hgh, List.mem_append, resolveToken_mem_fb]
  · rcases hu : (resolveToken db uid).1 with _ | user
    · simp [getRepositoryBranches, hu, List.mem_append, resolveToken_mem_fb]
    · by_cases hok : fetchOk ((ghB owner repo (user.github_access_token.getD "")).status) = true <;>
        simp [getRepositoryBranches, hu, hok, List.mem_append, resolveToken_mem_fb]
  · intro u2 ow rp hp
    rcases hl : lookupByFirebaseUid db uid with _ | user
    · simp [validateRepository, hp, hl]
    · by_cases ht : tokenTruthy user.github_access_token = true
      · by_cases hok2 :
            fetchOk ((ghV ow rp (user.github_access_token.getD "")).status) = true <;>
          simp [validateRepository, hp, hl, ht, hok2]
      · simp [validateRepository, hp, hl, ht]

/-- Witness for C9: branches handler leaves the table unchanged and emits no
write; the list-repositories trace contains the primary read. -/
theorem c9_witness :
    ((getRepositoryBranches [] "w9" "o" "r" ghBranchesW).2.2 = []
      ∧ (((getRepositoryBranches [] "w9" "o" "r" ghBranchesW).2.1).all
            fun e => !e.isDbWrite) = true)
    ∧ Effect.dbSelectByFirebaseUid "w9" ∈ (getRepositories [] "w9" ghListW).2.1 := by
  have h := c9_token_write_frame [] "w9" "o" "r" none ghListW ghBranchesW ghRepoW
  exact ⟨h.1, h.2.2.2.2.1⟩
